import Mathlib

/-!
# Verification of the bulk-mutation loops of whatsapp-web-group-actions

Shallow embedding of the two bulk-mutation scripts of the repository,
`add-participants-to-group.js` and `remove-inactive-from-group.js`, together
with theorems checking the specification's claims about them.

The external chat client (`whatsapp-web.js`) is modelled as an oracle: each
external call made inside the per-target loop either returns a value or
raises, and the oracle fixes, per loop iteration, the result of every such
call.  The loops themselves are translated statement by statement from the
source; console logging is dropped (it carries no state), and every `await`
of an external call or of a `setTimeout` delay is recorded as an `Event` so
that pacing and call-ordering claims can be stated on the event trace.
-/

namespace WhatsappGroupActions

/-- Replace the first occurrence of `pat` in the character list, leaving
the list unchanged when `pat` never occurs. -/
def replaceFirstAux (pat rep : List Char) : List Char → List Char
  | [] => []
  | c :: cs =>
      if pat.isPrefixOf (c :: cs) then rep ++ (c :: cs).drop pat.length
      else c :: replaceFirstAux pat rep cs

/-- JavaScript `String.prototype.replace` with a plain-string pattern
replaces only the first occurrence.  This models
`phoneNumber.replace('+', '')` from both scripts. -/
def replaceFirst (s pat rep : String) : String :=
  ⟨replaceFirstAux pat.data rep.data s.data⟩

/-- `phoneNumber.replace('+', '') + '@c.us'` — the participant id the loops
build from a phone number (add script line 265, remove script line 253). -/
def pidOf (phoneNumber : String) : String :=
  replaceFirst phoneNumber "+" "" ++ "@c.us"

/-- A group participant as read by the scripts: `p.id.user`,
`p.id._serialized` and `p.isAdmin`. -/
structure Participant where
  user : String
  idSerialized : String
  isAdmin : Bool
deriving DecidableEq

/-- The target group chat: name, serialized id and participant list. -/
structure GroupChat where
  name : String
  idSerialized : String
  participants : List Participant
deriving DecidableEq

/-- Delay constants of `add-participants-to-group.js` (lines 85-90). -/
structure AddDelays where
  VERIFICATION : Nat
  PRE_INVITE : Nat
  BETWEEN_ADDS : Nat
  AFTER_FAILURE : Nat

def addDelays : AddDelays := ⟨1000, 500, 2000, 1000⟩

/-- Delay constants of `remove-inactive-from-group.js` (lines 85-90). -/
structure RemoveDelays where
  VERIFICATION : Nat
  PRE_NOTIFICATION : Nat
  BETWEEN_REMOVALS : Nat
  AFTER_FAILURE : Nat

def removeDelays : RemoveDelays := ⟨1000, 500, 2000, 1000⟩

/-- Observable events of a run: awaited external calls, awaited delays, the
final results-file write, and the actions of the SIGINT handler. -/
inductive Event where
  | sleep (ms : Nat)
  | getChatById
  | addParticipantsCall (pid : String)
  | removeParticipantsCall (pid : String)
  | sendMessageCall (pid : String)
  | getInviteCodeCall
  | saveResultsFile
  | clientDestroy
  | processExit (code : Nat)
deriving DecidableEq

/-- One entry of the `results` array of the add script: fields `number`,
`status`, `method` and the optional `inviteLink` / `error` fields. -/
structure AddResult where
  number : String
  status : String
  method : String
  inviteLink : Option String := none
  error : Option String := none
deriving DecidableEq

/-- Oracle for the external calls one iteration of the add loop can make:
the membership re-read before the add (line 269), the direct add call
(line 281), the membership re-read used for verification (line 285), and
the invite message send (line 308). -/
structure AddStepBehavior where
  preFetch : Except String (List Participant)
  addCall : Except String Unit
  verifyFetch : Except String (List Participant)
  sendMsg : Except String Unit

/-- The invite-link fallback of the add loop. It is entered with the error
message `addErrorMsg` of the failed direct-add path (the `catch (addError)`
block, lines 296-317); when the send itself raises, control reaches the
outer catch (lines 325-333). `evs` are the events already emitted by the
iteration. -/
def addFallbackStep (inviteCode : Option String) (i n : Nat)
    (phoneNumber participantId addErrorMsg : String)
    (sendMsg : Except String Unit) (evs : List Event) : AddResult × List Event :=
  let betweenEv : List Event :=
    if i < n - 1 then [Event.sleep addDelays.BETWEEN_ADDS] else []
  let failEv : List Event :=
    if i < n - 1 then [Event.sleep addDelays.AFTER_FAILURE] else []
  match inviteCode with
  | some code =>
      match sendMsg with
      | Except.ok _ =>
          (⟨phoneNumber, "invited", "invite_link",
              some ("https://chat.whatsapp.com/" ++ code), none⟩,
            evs ++ [Event.sleep addDelays.PRE_INVITE,
              Event.sendMessageCall participantId] ++ betweenEv)
      | Except.error m =>
          (⟨phoneNumber, "failed", "error", none, some m⟩,
            evs ++ [Event.sleep addDelays.PRE_INVITE,
              Event.sendMessageCall participantId] ++ failEv)
  | none =>
      (⟨phoneNumber, "failed", "none", none, some addErrorMsg⟩,
        evs ++ betweenEv)

/-- One iteration of the add loop (lines 257-335), translated branch by
branch: in-loop already-in-group re-check (`continue` skips the pacing
delay), direct add, verification re-read after `DELAYS.VERIFICATION`,
invite fallback, and the outer catch with its `AFTER_FAILURE` delay. -/
def addStep (inviteCode : Option String) (i n : Nat) (phoneNumber : String)
    (b : AddStepBehavior) : AddResult × List Event :=
  let participantId := pidOf phoneNumber
  let betweenEv : List Event :=
    if i < n - 1 then [Event.sleep addDelays.BETWEEN_ADDS] else []
  let failEv : List Event :=
    if i < n - 1 then [Event.sleep addDelays.AFTER_FAILURE] else []
  match b.preFetch with
  | Except.error e =>
      (⟨phoneNumber, "failed", "error", none, some e⟩,
        [Event.getChatById] ++ failEv)
  | Except.ok updatedParticipants =>
      if updatedParticipants.any (fun p => p.idSerialized == participantId) then
        (⟨phoneNumber, "already_in_group", "skipped", none, none⟩,
          [Event.getChatById])
      else
        match b.addCall with
        | Except.error e =>
            addFallbackStep inviteCode i n phoneNumber participantId e b.sendMsg
              [Event.getChatById, Event.addParticipantsCall participantId]
        | Except.ok _ =>
            match b.verifyFetch with
            | Except.error e =>
                addFallbackStep inviteCode i n phoneNumber participantId e
                  b.sendMsg
                  [Event.getChatById, Event.addParticipantsCall participantId,
                    Event.sleep addDelays.VERIFICATION, Event.getChatById]
            | Except.ok verifyParticipants =>
                if verifyParticipants.any
                    (fun p => p.idSerialized == participantId) then
                  (⟨phoneNumber, "added", "direct", none, none⟩,
                    [Event.getChatById, Event.addParticipantsCall participantId,
                      Event.sleep addDelays.VERIFICATION, Event.getChatById]
                      ++ betweenEv)
                else
                  addFallbackStep inviteCode i n phoneNumber participantId
                    "Participant not found in group after add attempt"
                    b.sendMsg
                    [Event.getChatById, Event.addParticipantsCall participantId,
                      Event.sleep addDelays.VERIFICATION, Event.getChatById]

/-- `targetGroup.participants.map(p => '+' + p.id.user)` (add script
line 209, remove script line 207). -/
def currentParticipantsOf (g : GroupChat) : List String :=
  g.participants.map (fun p => "+" ++ p.user)

/-- The add script's pre-loop filter keeping the numbers not yet in the
group (lines 212-214). -/
def participantsToAddOf (g : GroupChat) (targets : List String) : List String :=
  targets.filter (fun ph => !((currentParticipantsOf g).contains ph))

/-- The add script's complement filter keeping the numbers already in the
group (lines 216-218). -/
def alreadyInGroupOf (g : GroupChat) (targets : List String) : List String :=
  targets.filter (fun ph => (currentParticipantsOf g).contains ph)

/-- Environment of one add run: the located target group (`none` when the
group id is not among the chats), the actor's own id, the result of
`getInviteCode`, and the per-iteration oracle. -/
structure AddEnv where
  targetGroup : Option GroupChat
  myId : String
  inviteCode : Except String String
  steps : Nat → AddStepBehavior

/-- `groupInviteCode` after the try/catch around `getInviteCode`
(lines 242-248): the code on success, `null` when the call raised. -/
def inviteCodeOf (env : AddEnv) : Option String :=
  match env.inviteCode with
  | Except.ok c => some c
  | Except.error _ => none

/-- The pairs (outcome, events) produced by the add loop, one per entry of
the filtered to-process list, in list order. -/
def addStepOuts (env : AddEnv) (g : GroupChat) (targets : List String) :
    List (AddResult × List Event) :=
  (participantsToAddOf g targets).enum.map
    (fun ie => addStep (inviteCodeOf env) ie.1
      (participantsToAddOf g targets).length ie.2 (env.steps ie.1))

/-- The `results` array accumulated by the add loop. -/
def addResultsList (env : AddEnv) (g : GroupChat) (targets : List String) :
    List AddResult :=
  (addStepOuts env g targets).map Prod.fst

/-- The events emitted inside the add loop, in execution order. -/
def addLoopEventsOf (env : AddEnv) (g : GroupChat) (targets : List String) :
    List Event :=
  ((addStepOuts env g targets).map Prod.snd).flatten

/-- The object written to `add_results_<timestamp>.json` (lines 353-363);
each counter is incremented exactly when a result with the matching status
is pushed, so the saved counts equal the status counts of `results`. -/
structure AddSaved where
  groupName : String
  totalToProcess : Nat
  successCount : Nat
  inviteCount : Nat
  skipCount : Nat
  failCount : Nat
  results : List AddResult
  alreadyInGroup : List String
deriving DecidableEq

def addSavedOf (env : AddEnv) (g : GroupChat) (targets : List String) :
    AddSaved :=
  ⟨g.name, (participantsToAddOf g targets).length,
    (addResultsList env g targets).countP (fun r => r.status == "added"),
    (addResultsList env g targets).countP (fun r => r.status == "invited"),
    (addResultsList env g targets).countP
      (fun r => r.status == "already_in_group"),
    (addResultsList env g targets).countP (fun r => r.status == "failed"),
    addResultsList env g targets,
    alreadyInGroupOf g targets⟩

/-- Observable output of one call of `addParticipantsToGroup`. -/
structure AddRunOutput where
  results : List AddResult
  savedFile : Option AddSaved
  events : List Event
deriving DecidableEq

/-- `addParticipantsToGroup` (lines 173-381): locate the group, check admin
status (lines 197-204), split the input list (lines 212-218), return early
when nothing is left to process (lines 225-228), fetch the invite code,
run the loop, and write the results file. -/
def addRun (env : AddEnv) (participants_to_add : List String) : AddRunOutput :=
  match env.targetGroup with
  | none => ⟨[], none, []⟩
  | some g =>
      match g.participants.find? (fun p => p.idSerialized == env.myId) with
      | none => ⟨[], none, []⟩
      | some me =>
          if !me.isAdmin then ⟨[], none, []⟩
          else if (participantsToAddOf g participants_to_add).length == 0 then
            ⟨[], none, []⟩
          else
            ⟨addResultsList env g participants_to_add,
              some (addSavedOf env g participants_to_add),
              Event.getInviteCodeCall ::
                (addLoopEventsOf env g participants_to_add
                  ++ [Event.saveResultsFile])⟩

/-- One entry of the `results` array of the remove script:
`{ number, status }` plus the optional `notificationSent`, `msgError` and
`error` fields (JavaScript objects omit absent fields, modelled as
`Option`). -/
structure RemoveResult where
  number : String
  status : String
  notificationSent : Option Bool := none
  msgError : Option String := none
  error : Option String := none
deriving DecidableEq

/-- Oracle for the external calls one iteration of the remove loop can
make: the removal call (line 265), the membership re-read used for
verification (line 269), and the notification send (line 284). -/
structure RemoveStepBehavior where
  removeCall : Except String Unit
  verifyFetch : Except String (List Participant)
  sendMsg : Except String Unit

/-- One iteration of the remove loop (lines 245-310): stale-snapshot
pre-check against `targetGroup.participants` (`continue` skips every
delay), removal call, verification re-read after `DELAYS.VERIFICATION`
(a participant still present raises, caught by the outer catch), then the
notification send whose failure only clears `notificationSent`. -/
def removeStep (g : GroupChat) (i n : Nat) (phoneNumber : String)
    (b : RemoveStepBehavior) : RemoveResult × List Event :=
  let participantId := pidOf phoneNumber
  let betweenEv : List Event :=
    if i < n - 1 then [Event.sleep removeDelays.BETWEEN_REMOVALS] else []
  let failEv : List Event :=
    if i < n - 1 then [Event.sleep removeDelays.AFTER_FAILURE] else []
  match g.participants.find? (fun p => p.idSerialized == participantId) with
  | none =>
      (⟨phoneNumber, "already_removed", some false, none, none⟩, [])
  | some _ =>
      match b.removeCall with
      | Except.error e =>
          (⟨phoneNumber, "failed", none, none, some e⟩,
            [Event.removeParticipantsCall participantId] ++ failEv)
      | Except.ok _ =>
          match b.verifyFetch with
          | Except.error e =>
              (⟨phoneNumber, "failed", none, none, some e⟩,
                [Event.removeParticipantsCall participantId,
                  Event.sleep removeDelays.VERIFICATION, Event.getChatById]
                  ++ failEv)
          | Except.ok updatedParticipants =>
              if updatedParticipants.any
                  (fun p => p.idSerialized == participantId) then
                (⟨phoneNumber, "failed", none, none,
                    some "Participant still in group after removal attempt"⟩,
                  [Event.removeParticipantsCall participantId,
                    Event.sleep removeDelays.VERIFICATION, Event.getChatById]
                    ++ failEv)
              else
                match b.sendMsg with
                | Except.ok _ =>
                    (⟨phoneNumber, "removed", some true, none, none⟩,
                      [Event.removeParticipantsCall participantId,
                        Event.sleep removeDelays.VERIFICATION,
                        Event.getChatById,
                        Event.sleep removeDelays.PRE_NOTIFICATION,
                        Event.sendMessageCall participantId] ++ betweenEv)
                | Except.error m =>
                    (⟨phoneNumber, "removed", some false, some m, none⟩,
                      [Event.removeParticipantsCall participantId,
                        Event.sleep removeDelays.VERIFICATION,
                        Event.getChatById,
                        Event.sleep removeDelays.PRE_NOTIFICATION,
                        Event.sendMessageCall participantId] ++ betweenEv)

/-- The remove script's pre-loop filter keeping the numbers currently in
the group (lines 210-212). -/
def participantsToRemoveOf (g : GroupChat) (targets : List String) :
    List String :=
  targets.filter (fun ph => (currentParticipantsOf g).contains ph)

/-- The remove script's complement filter keeping the numbers not in the
group (lines 214-216). -/
def notInGroupOf (g : GroupChat) (targets : List String) : List String :=
  targets.filter (fun ph => !((currentParticipantsOf g).contains ph))

/-- Environment of one remove run. -/
structure RemoveEnv where
  targetGroup : Option GroupChat
  myId : String
  steps : Nat → RemoveStepBehavior

/-- The pairs (outcome, events) produced by the remove loop. -/
def removeStepOuts (env : RemoveEnv) (g : GroupChat) (targets : List String) :
    List (RemoveResult × List Event) :=
  (participantsToRemoveOf g targets).enum.map
    (fun ie => removeStep g ie.1
      (participantsToRemoveOf g targets).length ie.2 (env.steps ie.1))

/-- The `results` array accumulated by the remove loop. -/
def removeResultsList (env : RemoveEnv) (g : GroupChat)
    (targets : List String) : List RemoveResult :=
  (removeStepOuts env g targets).map Prod.fst

/-- The events emitted inside the remove loop, in execution order. -/
def removeLoopEventsOf (env : RemoveEnv) (g : GroupChat)
    (targets : List String) : List Event :=
  ((removeStepOuts env g targets).map Prod.snd).flatten

/-- The object written to `removal_results_<timestamp>.json`
(lines 334-344); the counters mirror the statuses pushed into
`results` (lines 292, 302, 313-315). -/
structure RemoveSaved where
  groupName : String
  totalToProcess : Nat
  successCount : Nat
  failCount : Nat
  alreadyRemovedCount : Nat
  notificationsSent : Nat
  results : List RemoveResult
  notInGroup : List String
deriving DecidableEq

def removeSavedOf (env : RemoveEnv) (g : GroupChat) (targets : List String) :
    RemoveSaved :=
  ⟨g.name, (participantsToRemoveOf g targets).length,
    (removeResultsList env g targets).countP (fun r => r.status == "removed"),
    (removeResultsList env g targets).countP (fun r => r.status == "failed"),
    (removeResultsList env g targets).countP
      (fun r => r.status == "already_removed"),
    (removeResultsList env g targets).countP
      (fun r => r.status == "removed" && r.notificationSent == some true),
    removeResultsList env g targets,
    notInGroupOf g targets⟩

/-- Observable output of one call of `removeInactiveParticipants`. -/
structure RemoveRunOutput where
  results : List RemoveResult
  savedFile : Option RemoveSaved
  events : List Event
deriving DecidableEq

/-- `removeInactiveParticipants` (lines 171-362): locate the group, check
admin status (lines 195-202), split the input list (lines 210-216), return
early when nothing is left to process (lines 223-226), run the loop, and
write the results file. -/
def removeRun (env : RemoveEnv) (inactive_participants : List String) :
    RemoveRunOutput :=
  match env.targetGroup with
  | none => ⟨[], none, []⟩
  | some g =>
      match g.participants.find? (fun p => p.idSerialized == env.myId) with
      | none => ⟨[], none, []⟩
      | some me =>
          if !me.isAdmin then ⟨[], none, []⟩
          else if (participantsToRemoveOf g inactive_participants).length == 0
          then ⟨[], none, []⟩
          else
            ⟨removeResultsList env g inactive_participants,
              some (removeSavedOf env g inactive_participants),
              removeLoopEventsOf env g inactive_participants
                ++ [Event.saveResultsFile]⟩

/-- The SIGINT handler installed by both scripts (add script lines 388-392,
remove script lines 369-373): destroy the client, then exit the process
with code 0.  It records nothing and writes no file. -/
def sigintHandlerEvents : List Event :=
  [Event.clientDestroy, Event.processExit 0]

/-- Cooperative model of a SIGINT delivered during a run: Node's
single-threaded event loop dispatches the handler at an await boundary
(which may fall in the middle of processing a target), and `process.exit`
inside the handler stops execution there.  The observable trace is the
prefix of the run's trace up to the `k`-th awaited event, followed by the
handler's own actions. -/
def interruptedEvents (runEvents : List Event) (k : Nat) : List Event :=
  runEvents.take k ++ sigintHandlerEvents

/-! ## Concrete instances used by counterexamples and witnesses -/

/-- A behavior oracle in which every external call succeeds and every
membership re-read returns the given list. -/
def okBehavior (pre verify : List Participant) : AddStepBehavior :=
  ⟨Except.ok pre, Except.ok (), Except.ok verify, Except.ok ()⟩

/-- Group containing the acting admin and the member `+1111`. -/
def c1xG : GroupChat :=
  ⟨"G1", "11@g.us", [⟨"900", "900@c.us", true⟩, ⟨"1111", "1111@c.us", false⟩]⟩

/-- Add run whose single supplied target `+1111` is already in the group. -/
def c1xEnv : AddEnv :=
  ⟨some c1xG, "900@c.us", Except.ok "CODE", fun _ => okBehavior [] []⟩

/-- Group containing only the acting admin. -/
def c1wG : GroupChat := ⟨"W1", "12@g.us", [⟨"901", "901@c.us", true⟩]⟩

/-- Add run with one target to process whose direct add fails and no
invite link is available. -/
def c1wEnv : AddEnv :=
  ⟨some c1wG, "901@c.us", Except.error "link refused",
    fun _ => ⟨Except.ok [], Except.error "add refused", Except.ok [],
      Except.ok ()⟩⟩

/-- Behavior whose direct add raises and whose invite send also raises. -/
def c2xB : AddStepBehavior :=
  ⟨Except.ok [], Except.error "primary add refused", Except.ok [],
    Except.error "invite send blocked"⟩

/-- Behavior whose direct add raises while the invite send succeeds. -/
def c2wB : AddStepBehavior :=
  ⟨Except.ok [], Except.error "primary add refused", Except.ok [],
    Except.ok ()⟩

/-- Group used by the remove-script witnesses: the acting admin plus the
member `+3131`. -/
def c3wG : GroupChat :=
  ⟨"R1", "21@g.us", [⟨"902", "902@c.us", true⟩, ⟨"3131", "3131@c.us", false⟩]⟩

/-- Remove behavior: removal succeeds and verifies, notification raises. -/
def c3wB : RemoveStepBehavior :=
  ⟨Except.ok (), Except.ok [⟨"902", "902@c.us", true⟩],
    Except.error "message blocked"⟩

/-- Add behavior whose direct add reports success but whose verification
re-read does not show the participant. -/
def c4wB : AddStepBehavior :=
  ⟨Except.ok [], Except.ok (), Except.ok [], Except.ok ()⟩

/-- Remove behavior whose removal call reports success but whose
verification re-read still shows the participant. -/
def c4wRB : RemoveStepBehavior :=
  ⟨Except.ok (), Except.ok [⟨"3131", "3131@c.us", false⟩], Except.ok ()⟩

/-- Behavior whose direct add raises, used with no invite link. -/
def c5xB : AddStepBehavior :=
  ⟨Except.ok [], Except.error "add refused", Except.ok [], Except.ok ()⟩

/-- Group whose only non-admin member is the actor, who is not an admin. -/
def c6wG : GroupChat := ⟨"G6", "61@g.us", [⟨"903", "903@c.us", false⟩]⟩

/-- Add environment in which the actor lacks admin privilege. -/
def c6wEnv : AddEnv :=
  ⟨some c6wG, "903@c.us", Except.ok "CODE", fun _ => okBehavior [] []⟩

/-- Remove environment in which the actor lacks admin privilege. -/
def c6wREnv : RemoveEnv :=
  ⟨some c6wG, "903@c.us", fun _ => ⟨Except.ok (), Except.ok [], Except.ok ()⟩⟩

/-- Group state after a first add run succeeded: `+2222` is now a
member. -/
def c7xG : GroupChat :=
  ⟨"G7", "71@g.us", [⟨"904", "904@c.us", true⟩, ⟨"2222", "2222@c.us", false⟩]⟩

/-- Second add run of the same job against the updated group state. -/
def c7xEnv : AddEnv :=
  ⟨some c7xG, "904@c.us", Except.ok "CODE", fun _ => okBehavior [] []⟩

/-- Remove environment for the second-run witness: the target has already
been removed from the group. -/
def c7wREnv : RemoveEnv :=
  ⟨some c7xG, "904@c.us", fun _ => ⟨Except.ok (), Except.ok [], Except.ok ()⟩⟩

/-- Add environment in which every external call of every iteration
raises. -/
def c8wEnv : AddEnv :=
  ⟨some c1wG, "901@c.us", Except.error "link refused",
    fun _ => ⟨Except.error "session dropped", Except.error "session dropped",
      Except.error "session dropped", Except.error "session dropped"⟩⟩

/-- Add run with two targets to process whose direct adds succeed and
verify. -/
def c9xG : GroupChat := ⟨"G9", "91@g.us", [⟨"905", "905@c.us", true⟩]⟩

def c9xEnv : AddEnv :=
  ⟨some c9xG, "905@c.us", Except.ok "CODE",
    fun i => if i == 0 then okBehavior [] [⟨"1", "1@c.us", false⟩]
      else okBehavior [] [⟨"2", "2@c.us", false⟩]⟩

/-- Group used by the C10 counterexample, already containing `+3333`. -/
def c10xG : GroupChat :=
  ⟨"GA", "101@g.us", [⟨"906", "906@c.us", true⟩, ⟨"3333", "3333@c.us", false⟩]⟩

def c10xEnv : AddEnv :=
  ⟨some c10xG, "906@c.us", Except.ok "CODE", fun _ => okBehavior [] []⟩

/-- Group used by the C10 witness: contains the admin and `+4444`, so a
mixed input list is split between both filter outputs. -/
def c10wG : GroupChat :=
  ⟨"GB", "102@g.us", [⟨"907", "907@c.us", true⟩, ⟨"4444", "4444@c.us", false⟩]⟩

def c10wEnv : AddEnv :=
  ⟨some c10wG, "907@c.us", Except.ok "CODE",
    fun _ => okBehavior [] [⟨"5555", "5555@c.us", false⟩]⟩

/-! ## Helper lemmas -/

theorem addFallbackStep_number (inviteCode : Option String) (i n : Nat)
    (phoneNumber participantId addErrorMsg : String)
    (sendMsg : Except String Unit) (evs : List Event) :
    (addFallbackStep inviteCode i n phoneNumber participantId addErrorMsg
      sendMsg evs).1.number = phoneNumber := by
  unfold addFallbackStep
  cases inviteCode with
  | none => rfl
  | some code =>
      cases sendMsg with
      | ok u => rfl
      | error m => rfl

theorem addStep_number (inviteCode : Option String) (i n : Nat)
    (phoneNumber : String) (b : AddStepBehavior) :
    (addStep inviteCode i n phoneNumber b).1.number = phoneNumber := by
  obtain ⟨pf, ac, vf, sm⟩ := b
  unfold addStep
  cases pf with
  | error e => rfl
  | ok ups =>
      dsimp only
      cases hany : ups.any (fun p => p.idSerialized == pidOf phoneNumber) with
      | true => simp [hany]
      | false =>
          simp only [hany, Bool.false_eq_true, if_false]
          cases ac with
          | error e => exact addFallbackStep_number ..
          | ok u =>
              dsimp only
              cases vf with
              | error e => exact addFallbackStep_number ..
              | ok vps =>
                  dsimp only
                  cases hv : vps.any
                      (fun p => p.idSerialized == pidOf phoneNumber) with
                  | true => simp [hv]
                  | false =>
                      simp only [hv, Bool.false_eq_true, if_false]
                      exact addFallbackStep_number ..

/-- Unfolding of `addRun` in the case that reaches the processing loop:
the group was found, the actor is an admin, and the pre-loop filter left
something to process. -/
theorem addRun_eq_of_full (env : AddEnv) (g : GroupChat) (me : Participant)
    (ts : List String)
    (hg : env.targetGroup = some g)
    (hme : g.participants.find? (fun p => p.idSerialized == env.myId) = some me)
    (hadm : me.isAdmin = true)
    (hne : participantsToAddOf g ts ≠ []) :
    addRun env ts =
      ⟨addResultsList env g ts, some (addSavedOf env g ts),
        Event.getInviteCodeCall ::
          (addLoopEventsOf env g ts ++ [Event.saveResultsFile])⟩ := by
  have hlen : ((participantsToAddOf g ts).length == 0) = false := by
    simp only [beq_eq_false_iff_ne, ne_eq, List.length_eq_zero]
    exact hne
  unfold addRun
  rw [hg]
  dsimp only
  rw [hme]
  dsimp only
  simp only [hadm, Bool.not_true, Bool.false_eq_true, if_false, hlen]

/-- Unfolding of `removeRun` in the case that reaches the processing
loop. -/
theorem removeRun_eq_of_full (env : RemoveEnv) (g : GroupChat)
    (me : Participant) (ts : List String)
    (hg : env.targetGroup = some g)
    (hme : g.participants.find? (fun p => p.idSerialized == env.myId) = some me)
    (hadm : me.isAdmin = true)
    (hne : participantsToRemoveOf g ts ≠ []) :
    removeRun env ts =
      ⟨removeResultsList env g ts, some (removeSavedOf env g ts),
        removeLoopEventsOf env g ts ++ [Event.saveResultsFile]⟩ := by
  have hlen : ((participantsToRemoveOf g ts).length == 0) = false := by
    simp only [beq_eq_false_iff_ne, ne_eq, List.length_eq_zero]
    exact hne
  unfold removeRun
  rw [hg]
  dsimp only
  rw [hme]
  dsimp only
  simp only [hadm, Bool.not_true, Bool.false_eq_true, if_false, hlen]

/-- The `results` array of a full add run lists exactly the filtered
to-process numbers, in their order. -/
theorem addResultsList_map_number (env : AddEnv) (g : GroupChat)
    (ts : List String) :
    (addResultsList env g ts).map (fun r => r.number) =
      participantsToAddOf g ts := by
  unfold addResultsList addStepOuts
  rw [List.map_map, List.map_map]
  have hfun :
      (((fun r : AddResult => r.number) ∘ Prod.fst) ∘
        (fun ie : Nat × String =>
          addStep (inviteCodeOf env) ie.1
            (participantsToAddOf g ts).length ie.2 (env.steps ie.1))) =
      (Prod.snd : Nat × String → String) := by
    funext ie
    exact addStep_number ..
  rw [hfun, List.enum_map_snd]

/-- The in-loop re-check: when the membership read before the add already
shows the participant, the iteration records `already_in_group` and skips
every call and delay. -/
theorem addStep_already (ic : Option String) (i n : Nat) (ph : String)
    (b : AddStepBehavior) (ps : List Participant)
    (hpf : b.preFetch = Except.ok ps)
    (hany : ps.any (fun p => p.idSerialized == pidOf ph) = true) :
    addStep ic i n ph b =
      (⟨ph, "already_in_group", "skipped", none, none⟩,
        [Event.getChatById]) := by
  unfold addStep
  rw [hpf]
  dsimp only
  rw [hany]
  simp

/-- No branch of an add-loop iteration emits the results-file write. -/
theorem addStep_events_no_save (ic : Option String) (i n : Nat)
    (ph : String) (b : AddStepBehavior) :
    Event.saveResultsFile ∉ (addStep ic i n ph b).2 := by
  obtain ⟨pf, ac, vf, sm⟩ := b
  unfold addStep addFallbackStep
  cases pf <;> dsimp only
  case error e => split <;> simp
  case ok ups =>
    cases hany : ups.any (fun p => p.idSerialized == pidOf ph) with
    | true => simp [hany]
    | false =>
        simp only [hany, Bool.false_eq_true, if_false]
        cases ac <;> dsimp only
        case error e =>
          cases ic <;> dsimp only
          case none => split <;> simp
          case some c => cases sm <;> dsimp only <;> split <;> simp
        case ok u =>
          cases vf <;> dsimp only
          case error e =>
            cases ic <;> dsimp only
            case none => split <;> simp
            case some c => cases sm <;> dsimp only <;> split <;> simp
          case ok vps =>
            cases hv : vps.any (fun p => p.idSerialized == pidOf ph) with
            | true =>
                rw [if_pos rfl]
                split <;> simp
            | false =>
                simp only [hv, Bool.false_eq_true, if_false]
                cases ic <;> dsimp only
                case none => split <;> simp
                case some c => cases sm <;> dsimp only <;> split <;> simp

/-- The add loop as a whole never emits the results-file write; that event
is appended once, after the loop. -/
theorem addLoopEvents_no_save (env : AddEnv) (g : GroupChat)
    (ts : List String) :
    Event.saveResultsFile ∉ addLoopEventsOf env g ts := by
  unfold addLoopEventsOf
  intro h
  rcases List.mem_flatten.mp h with ⟨l, hl, hmem⟩
  rcases List.mem_map.mp hl with ⟨pr, hpr, rfl⟩
  rcases List.mem_map.mp hpr with ⟨ie, hie, rfl⟩
  exact addStep_events_no_save _ _ _ _ _ hmem

/-! ## Claim theorems -/

/-- C1 counterexample: with supplied target list `["+1111"]` and a group
that already contains `+1111` (actor is admin), the full, uncancelled run
records no Outcome at all — the pre-loop filter removes the target, the run
returns before the loop, and no artifact is written.  This refutes the
claim that the Outcome list always has the same length as the supplied
target list and that an already-satisfied target still gets an
`already-satisfied` Outcome. -/
theorem c1_counterexample :
    (addRun c1xEnv ["+1111"]).results = [] ∧
      (["+1111"] : List String).length = 1 ∧
      (addRun c1xEnv ["+1111"]).savedFile = none := by decide

/-- C1 amended: in a full, uncancelled add run, exactly one Outcome is
created per entry of the pre-loop *filtered* to-process list (the supplied
targets not already in the group), and the Outcomes appear in the same
order as those targets; a supplied target already in the group at the
pre-loop check is excluded from the Outcome list and listed separately.
A target that the *in-loop* re-check finds already in the group does still
get an Outcome, with status `already_in_group`. -/
theorem c1_one_outcome_per_filtered_target (env : AddEnv) (g : GroupChat)
    (me : Participant) (ts : List String)
    (hg : env.targetGroup = some g)
    (hme : g.participants.find? (fun p => p.idSerialized == env.myId) = some me)
    (hadm : me.isAdmin = true)
    (hne : participantsToAddOf g ts ≠ []) :
    (addRun env ts).results.map (fun r => r.number) =
        participantsToAddOf g ts ∧
      ∀ (ic : Option String) (i n : Nat) (ph : String) (b : AddStepBehavior)
        (ps : List Participant), b.preFetch = Except.ok ps →
        ps.any (fun p => p.idSerialized == pidOf ph) = true →
        (addStep ic i n ph b).1.status = "already_in_group" := by
  constructor
  · rw [addRun_eq_of_full env g me ts hg hme hadm hne]
    exact addResultsList_map_number env g ts
  · intro ic i n ph b ps hpf hany
    rw [addStep_already ic i n ph b ps hpf hany]

/-- Witness for the amended C1 at a concrete input. -/
theorem c1_witness :
    (addRun c1wEnv ["+5555"]).results.map (fun r => r.number) =
      participantsToAddOf c1wG ["+5555"] :=
  (c1_one_outcome_per_filtered_target c1wEnv c1wG ⟨"901", "901@c.us", true⟩
    ["+5555"] rfl rfl rfl (by decide)).1

/-- C2 counterexample: a target whose direct add raises
`"primary add refused"` and whose invite-link fallback send raises
`"invite send blocked"` is recorded as `failed` with the *fallback's*
error message, not the primary action's — the outer catch stores the
exception it caught, which is the send error. -/
theorem c2_counterexample :
    (addStep (some "CODE") 0 1 "+7777" c2xB).1.status = "failed" ∧
      (addStep (some "CODE") 0 1 "+7777" c2xB).1.error =
        some "invite send blocked" ∧
      (addStep (some "CODE") 0 1 "+7777" c2xB).1.error ≠
        some "primary add refused" := by decide

/-- C2 amended: on primary failure, a fallback send that completes without
raising yields status `invited` (succeeded-fallback); an unavailable
fallback (no invite link) yields `failed` carrying the *primary* error
detail; a fallback that itself raises yields `failed` carrying the
*fallback's* error detail. -/
theorem c2_fallback_statuses (i n : Nat) (ph e : String)
    (b : AddStepBehavior) (ps : List Participant)
    (hpf : b.preFetch = Except.ok ps)
    (hps : ps.any (fun p => p.idSerialized == pidOf ph) = false)
    (hadd : b.addCall = Except.error e) :
    ((addStep none i n ph b).1.status = "failed" ∧
        (addStep none i n ph b).1.error = some e) ∧
      (∀ c : String, b.sendMsg = Except.ok () →
        (addStep (some c) i n ph b).1.status = "invited") ∧
      (∀ c m : String, b.sendMsg = Except.error m →
        (addStep (some c) i n ph b).1.status = "failed" ∧
          (addStep (some c) i n ph b).1.error = some m) := by
  refine ⟨?_, ?_, ?_⟩
  · unfold addStep addFallbackStep
    rw [hpf]
    dsimp only
    rw [hps]
    simp [hadd]
  · intro c hsm
    unfold addStep addFallbackStep
    rw [hpf]
    dsimp only
    rw [hps]
    simp [hadd, hsm]
  · intro c m hsm
    unfold addStep addFallbackStep
    rw [hpf]
    dsimp only
    rw [hps]
    simp [hadd, hsm]

/-- Witness for the amended C2 at a concrete input: fallback raising and
fallback succeeding. -/
theorem c2_witness :
    ((addStep none 0 1 "+7777" c2xB).1.status = "failed" ∧
        (addStep none 0 1 "+7777" c2xB).1.error =
          some "primary add refused") ∧
      (addStep (some "CODE") 0 1 "+7777" c2wB).1.status = "invited" ∧
      (addStep (some "CODE") 0 1 "+7777" c2xB).1.error =
        some "invite send blocked" :=
  ⟨(c2_fallback_statuses 0 1 "+7777" "primary add refused" c2xB [] rfl rfl
      rfl).1,
    (c2_fallback_statuses 0 1 "+7777" "primary add refused" c2wB [] rfl rfl
      rfl).2.1 "CODE" rfl,
    ((c2_fallback_statuses 0 1 "+7777" "primary add refused" c2xB [] rfl rfl
      rfl).2.2 "CODE" "invite send blocked" rfl).2⟩

/-- C3: when a removal succeeds and verifies but the notification message
send raises, the Outcome keeps terminal status `removed` with
`notificationSent := false` and the message error stored in `msgError`;
the failure is never escalated to `failed`. -/
theorem c3_notification_failure_not_escalated (g : GroupChat) (i n : Nat)
    (ph m : String) (b : RemoveStepBehavior) (q : Participant)
    (vps : List Participant)
    (hfind : g.participants.find? (fun p => p.idSerialized == pidOf ph) =
      some q)
    (hrc : b.removeCall = Except.ok ())
    (hvf : b.verifyFetch = Except.ok vps)
    (hgone : vps.any (fun p => p.idSerialized == pidOf ph) = false)
    (hmsg : b.sendMsg = Except.error m) :
    (removeStep g i n ph b).1 = ⟨ph, "removed", some false, some m, none⟩ := by
  simp only [removeStep]
  rw [hfind]
  dsimp only
  rw [hrc]
  dsimp only
  rw [hvf]
  dsimp only
  rw [hgone]
  simp [hmsg]

/-- Witness for C3 at a concrete input. -/
theorem c3_witness :
    (removeStep c3wG 0 1 "+3131" c3wB).1 =
      ⟨"+3131", "removed", some false, some "message blocked", none⟩ :=
  c3_notification_failure_not_escalated c3wG 0 1 "+3131" "message blocked"
    c3wB ⟨"3131", "3131@c.us", false⟩ [⟨"902", "902@c.us", true⟩]
    (by decide) rfl rfl (by decide) rfl

/-- C4: when the primary mutation call returns without error, both loops
wait the verification delay and re-read the membership, and the Outcome is
decided by that re-read, not by the call's return value: an add whose
re-read does not show the participant is treated as a primary failure
(status is never `added`), an add whose re-read shows it is `added`; a
removal whose re-read still shows the participant is `failed` with the
verification error message, one whose re-read no longer shows it is
`removed`. -/
theorem c4_requery_is_source_of_truth
    (ic : Option String) (i n : Nat) (ph : String) (b : AddStepBehavior)
    (ups vps : List Participant)
    (hpf : b.preFetch = Except.ok ups)
    (hups : ups.any (fun p => p.idSerialized == pidOf ph) = false)
    (hadd : b.addCall = Except.ok ())
    (hvf : b.verifyFetch = Except.ok vps)
    (g : GroupChat) (rb : RemoveStepBehavior) (q : Participant)
    (rvps : List Participant)
    (hfind : g.participants.find? (fun p => p.idSerialized == pidOf ph) =
      some q)
    (hrc : rb.removeCall = Except.ok ())
    (hrvf : rb.verifyFetch = Except.ok rvps) :
    ((addStep ic i n ph b).2.take 4 =
        [Event.getChatById, Event.addParticipantsCall (pidOf ph),
          Event.sleep addDelays.VERIFICATION, Event.getChatById]) ∧
      (vps.any (fun p => p.idSerialized == pidOf ph) = true →
        (addStep ic i n ph b).1.status = "added") ∧
      (vps.any (fun p => p.idSerialized == pidOf ph) = false →
        (addStep ic i n ph b).1.status ≠ "added") ∧
      ((removeStep g i n ph rb).2.take 3 =
        [Event.removeParticipantsCall (pidOf ph),
          Event.sleep removeDelays.VERIFICATION, Event.getChatById]) ∧
      (rvps.any (fun p => p.idSerialized == pidOf ph) = true →
        (removeStep g i n ph rb).1.status = "failed" ∧
          (removeStep g i n ph rb).1.error =
            some "Participant still in group after removal attempt") ∧
      (rvps.any (fun p => p.idSerialized == pidOf ph) = false →
        (removeStep g i n ph rb).1.status = "removed") := by
  refine ⟨?_, ?_, ?_, ?_, ?_, ?_⟩
  · unfold addStep addFallbackStep
    rw [hpf]
    dsimp only
    rw [hups]
    simp only [Bool.false_eq_true, if_false, hadd, hvf]
    cases hv : vps.any (fun p => p.idSerialized == pidOf ph) with
    | true =>
        rw [if_pos rfl]
        rfl
    | false =>
        rw [if_neg (by simp)]
        cases ic with
        | none => rfl
        | some c =>
            cases hsm : b.sendMsg with
            | ok u => rfl
            | error m => rfl
  · intro hv
    unfold addStep
    rw [hpf]
    dsimp only
    rw [hups]
    simp [hadd, hvf, hv]
  · intro hv
    unfold addStep addFallbackStep
    rw [hpf]
    dsimp only
    rw [hups]
    simp only [Bool.false_eq_true, if_false, hadd, hvf]
    rw [hv]
    rw [if_neg (by simp)]
    cases ic with
    | none => simp
    | some c =>
        cases hsm : b.sendMsg with
        | ok u => simp [hsm]
        | error m => simp [hsm]
  · simp only [removeStep]
    rw [hfind]
    dsimp only
    rw [hrc]
    dsimp only
    rw [hrvf]
    dsimp only
    cases hv : rvps.any (fun p => p.idSerialized == pidOf ph) with
    | true =>
        rw [if_pos rfl]
        rfl
    | false =>
        rw [if_neg (by simp)]
        cases hsm : rb.sendMsg with
        | ok u => rfl
        | error m => rfl
  · intro hv
    simp only [removeStep]
    rw [hfind]
    dsimp only
    rw [hrc]
    dsimp only
    rw [hrvf]
    dsimp only
    rw [hv]
    rw [if_pos rfl]
    exact ⟨rfl, rfl⟩
  · intro hv
    simp only [removeStep]
    rw [hfind]
    dsimp only
    rw [hrc]
    dsimp only
    rw [hrvf]
    dsimp only
    rw [hv]
    rw [if_neg (by simp)]
    cases hsm : rb.sendMsg with
    | ok u => rfl
    | error m => rfl

/-- Witness for C4 at a concrete input: an add call that reported success
but whose re-read does not show the participant is not recorded `added`,
and a removal call that reported success but whose re-read still shows the
participant is recorded `failed`. -/
theorem c4_witness :
    (addStep (some "CODE") 0 1 "+3131" c4wB).1.status ≠ "added" ∧
      (removeStep c3wG 0 1 "+3131" c4wRB).1.status = "failed" := by
  have h := c4_requery_is_source_of_truth (some "CODE") 0 1 "+3131" c4wB
    [] [] rfl rfl rfl rfl c3wG c4wRB ⟨"3131", "3131@c.us", false⟩
    [⟨"3131", "3131@c.us", false⟩] (by decide) rfl rfl
  exact ⟨h.2.2.1 rfl, (h.2.2.2.2.1 (by decide)).1⟩

/-- C5 counterexample: a non-final target (index 0 of 2) whose direct add
raises while no invite link is available is recorded `failed`, yet the
delay consumed before the next target is the standard between-items delay
`BETWEEN_ADDS` (2000 ms), not the after-failure delay: this `failed`
outcome is pushed inside the outer try, so control falls through to the
standard pacing statement. -/
theorem c5_counterexample :
    (addStep none 0 2 "+8888" c5xB).1.status = "failed" ∧
      (addStep none 0 2 "+8888" c5xB).2.getLast? =
        some (Event.sleep addDelays.BETWEEN_ADDS) ∧
      (addStep none 0 2 "+8888" c5xB).2.getLast? ≠
        some (Event.sleep addDelays.AFTER_FAILURE) := by decide

/-- C5 amended: in the remove loop every non-final `failed` target is
followed by the after-failure delay; in the add loop a non-final target
that fails by a *thrown* error (pre-check raise, or fallback send raise)
is followed by the after-failure delay, but a target recorded `failed`
because the fallback is unavailable (no invite link) is followed by the
standard between-items delay instead. -/
theorem c5_failure_delay_split (i n : Nat) (hn : i < n - 1) :
    (∀ (ph e : String) (b : AddStepBehavior) (ups : List Participant),
        b.preFetch = Except.ok ups →
        ups.any (fun p => p.idSerialized == pidOf ph) = false →
        b.addCall = Except.error e →
        (addStep none i n ph b).1.status = "failed" ∧
          (addStep none i n ph b).2.getLast? =
            some (Event.sleep addDelays.BETWEEN_ADDS)) ∧
      (∀ (ph e m c : String) (b : AddStepBehavior) (ups : List Participant),
        b.preFetch = Except.ok ups →
        ups.any (fun p => p.idSerialized == pidOf ph) = false →
        b.addCall = Except.error e → b.sendMsg = Except.error m →
        (addStep (some c) i n ph b).2.getLast? =
          some (Event.sleep addDelays.AFTER_FAILURE)) ∧
      (∀ (ic : Option String) (ph e : String) (b : AddStepBehavior),
        b.preFetch = Except.error e →
        (addStep ic i n ph b).2.getLast? =
          some (Event.sleep addDelays.AFTER_FAILURE)) ∧
      (∀ (g : GroupChat) (ph : String) (rb : RemoveStepBehavior),
        (removeStep g i n ph rb).1.status = "failed" →
        (removeStep g i n ph rb).2.getLast? =
          some (Event.sleep removeDelays.AFTER_FAILURE)) := by
  refine ⟨?_, ?_, ?_, ?_⟩
  · intro ph e b ups hpf hups hadd
    unfold addStep addFallbackStep
    rw [hpf]
    dsimp only
    rw [hups]
    simp [hadd, hn]
  · intro ph e m c b ups hpf hups hadd hsm
    unfold addStep addFallbackStep
    rw [hpf]
    dsimp only
    rw [hups]
    simp [hadd, hsm, hn]
  · intro ic ph e b hpf
    unfold addStep
    rw [hpf]
    simp [hn]
  · intro g ph rb
    simp only [removeStep]
    cases hfind : g.participants.find?
        (fun p => p.idSerialized == pidOf ph) with
    | none =>
        intro hst
        dsimp only at hst
        exact absurd hst (by decide)
    | some q =>
        dsimp only
        cases hrc : rb.removeCall with
        | error e =>
            intro _
            simp [hn]
        | ok u =>
            dsimp only
            cases hrvf : rb.verifyFetch with
            | error e =>
                intro _
                simp [hn]
            | ok rvps =>
                dsimp only
                cases hv : rvps.any
                    (fun p => p.idSerialized == pidOf ph) with
                | true =>
                    rw [if_pos rfl]
                    intro _
                    simp [hn]
                | false =>
                    rw [if_neg (by simp)]
                    cases hsm : rb.sendMsg with
                    | ok u2 =>
                        intro hst
                        dsimp only at hst
                        exact absurd hst (by decide)
                    | error m2 =>
                        intro hst
                        dsimp only at hst
                        exact absurd hst (by decide)

/-- Witness for the amended C5 at concrete inputs. -/
theorem c5_witness :
    ((addStep none 0 2 "+8888" c5xB).1.status = "failed" ∧
        (addStep none 0 2 "+8888" c5xB).2.getLast? =
          some (Event.sleep addDelays.BETWEEN_ADDS)) ∧
      (addStep (some "CODE") 0 2 "+7777" c2xB).2.getLast? =
        some (Event.sleep addDelays.AFTER_FAILURE) := by
  have h := c5_failure_delay_split 0 2 (by decide)
  exact ⟨h.1 "+8888" "add refused" c5xB [] rfl rfl rfl,
    h.2.1 "+7777" "primary add refused" "invite send blocked" "CODE" c2xB []
      rfl rfl rfl rfl⟩

/-- C6: when the acting account is not an admin of the target group (it is
absent from the participant list, or present without the admin flag), both
runs abort before any target is processed: the Outcome list is empty, no
results file is written, and the event trace is empty — no mutation,
fallback or notification call and no pacing delay. -/
theorem c6_privilege_abort (env : AddEnv) (renv : RemoveEnv)
    (g g2 : GroupChat) (ts rs : List String)
    (hg : env.targetGroup = some g)
    (hadm : g.participants.find? (fun p => p.idSerialized == env.myId) =
        none ∨
      ∃ me, g.participants.find? (fun p => p.idSerialized == env.myId) =
        some me ∧ me.isAdmin = false)
    (hg2 : renv.targetGroup = some g2)
    (hadm2 : g2.participants.find? (fun p => p.idSerialized == renv.myId) =
        none ∨
      ∃ me, g2.participants.find? (fun p => p.idSerialized == renv.myId) =
        some me ∧ me.isAdmin = false) :
    addRun env ts = ⟨[], none, []⟩ ∧ removeRun renv rs = ⟨[], none, []⟩ := by
  constructor
  · unfold addRun
    rw [hg]
    dsimp only
    rcases hadm with h | ⟨me, hme, hf⟩
    · rw [h]
    · rw [hme]
      dsimp only
      simp [hf]
  · unfold removeRun
    rw [hg2]
    dsimp only
    rcases hadm2 with h | ⟨me, hme, hf⟩
    · rw [h]
    · rw [hme]
      dsimp only
      simp [hf]

/-- Witness for C6 at a concrete input: the actor is in the group but not
an admin. -/
theorem c6_witness :
    addRun c6wEnv ["+1111"] = ⟨[], none, []⟩ ∧
      removeRun c6wREnv ["+1111"] = ⟨[], none, []⟩ :=
  c6_privilege_abort c6wEnv c6wREnv c6wG c6wG ["+1111"] ["+1111"] rfl
    (Or.inr ⟨⟨"903", "903@c.us", false⟩, rfl, rfl⟩) rfl
    (Or.inr ⟨⟨"903", "903@c.us", false⟩, rfl, rfl⟩)

/-- C7 counterexample: a second add run of the job `["+2222"]` against a
session whose group state already contains `+2222` (the first run's
successful mutation) yields an *empty* Outcome list — the runner filters
the target out and returns before the loop — not an Outcome with status
`already-satisfied` for the target; no artifact is written either. -/
theorem c7_counterexample :
    (addRun c7xEnv ["+2222"]).results = [] ∧
      ¬(∀ t ∈ ["+2222"], ∃ o ∈ (addRun c7xEnv ["+2222"]).results,
        o.number = t ∧ o.status = "already_in_group") ∧
      (addRun c7xEnv ["+2222"]).savedFile = none := by decide

/-- C7 amended: re-running the job against a session whose state already
satisfies every target's post-condition is idempotent in the weaker sense
that no primary, fallback or notification call is made and no pacing delay
is consumed — every target is filtered into the complement list
(`alreadyInGroup` for adds, `notInGroup` for removals) and the runner
returns before the loop with an empty Outcome list and no artifact. -/
theorem c7_second_run_short_circuits (env : AddEnv) (renv : RemoveEnv)
    (g g2 : GroupChat) (ts rs : List String)
    (hg : env.targetGroup = some g)
    (hg2 : renv.targetGroup = some g2)
    (hall : ∀ t ∈ ts, (currentParticipantsOf g).contains t = true)
    (hall2 : ∀ t ∈ rs, (currentParticipantsOf g2).contains t = false) :
    (addRun env ts = ⟨[], none, []⟩ ∧ alreadyInGroupOf g ts = ts) ∧
      removeRun renv rs = ⟨[], none, []⟩ ∧ notInGroupOf g2 rs = rs := by
  have hempty : participantsToAddOf g ts = [] := by
    unfold participantsToAddOf
    rw [List.filter_eq_nil_iff]
    intro a ha
    simpa using hall a ha
  have hfull : alreadyInGroupOf g ts = ts := by
    unfold alreadyInGroupOf
    rw [List.filter_eq_self]
    intro a ha
    exact hall a ha
  have hempty2 : participantsToRemoveOf g2 rs = [] := by
    unfold participantsToRemoveOf
    rw [List.filter_eq_nil_iff]
    intro a ha
    simpa using hall2 a ha
  have hfull2 : notInGroupOf g2 rs = rs := by
    unfold notInGroupOf
    rw [List.filter_eq_self]
    intro a ha
    simpa using hall2 a ha
  refine ⟨⟨?_, hfull⟩, ?_, hfull2⟩
  · unfold addRun
    rw [hg]
    dsimp only
    cases hfind : g.participants.find?
        (fun p => p.idSerialized == env.myId) with
    | none => rfl
    | some me =>
        dsimp only
        cases hma : me.isAdmin with
        | false => simp
        | true => simp [hempty]
  · unfold removeRun
    rw [hg2]
    dsimp only
    cases hfind : g2.participants.find?
        (fun p => p.idSerialized == renv.myId) with
    | none => rfl
    | some me =>
        dsimp only
        cases hma : me.isAdmin with
        | false => simp
        | true => simp [hempty2]

/-- Witness for the amended C7 at a concrete input. -/
theorem c7_witness :
    (addRun c7xEnv ["+2222"] = ⟨[], none, []⟩ ∧
        alreadyInGroupOf c7xG ["+2222"] = ["+2222"]) ∧
      removeRun c7wREnv ["+9999"] = ⟨[], none, []⟩ ∧
        notInGroupOf c7xG ["+9999"] = ["+9999"] :=
  c7_second_run_short_circuits c7xEnv c7wREnv c7xG c7xG ["+2222"] ["+9999"]
    rfl rfl (by decide) (by decide)

/-- C8: once the privilege precondition has passed (and the filtered list
is non-empty, so the loop runs), no per-target error propagates out of the
loop: for *every* behavior oracle — including one where every external
call of every iteration raises — the run still returns, the Outcome list
covers every processed target, and the summary artifact holding the full
Outcome list is written. -/
theorem c8_summary_always_persisted (env : AddEnv) (g : GroupChat)
    (me : Participant) (ts : List String)
    (hg : env.targetGroup = some g)
    (hme : g.participants.find? (fun p => p.idSerialized == env.myId) = some me)
    (hadm : me.isAdmin = true)
    (hne : participantsToAddOf g ts ≠ []) :
    ∃ s : AddSaved, (addRun env ts).savedFile = some s ∧
      s.results = (addRun env ts).results ∧
      s.results.length = (participantsToAddOf g ts).length ∧
      s.alreadyInGroup = alreadyInGroupOf g ts := by
  rw [addRun_eq_of_full env g me ts hg hme hadm hne]
  refine ⟨addSavedOf env g ts, rfl, rfl, ?_, rfl⟩
  show (addResultsList env g ts).length = (participantsToAddOf g ts).length
  unfold addResultsList addStepOuts
  simp [List.length_map, List.enum_length]

/-- Witness for C8 at a concrete input in which every external call of the
single processed target raises: the summary is still written, with one
(failed) Outcome. -/
theorem c8_witness :
    ∃ s : AddSaved, (addRun c8wEnv ["+5555"]).savedFile = some s ∧
      s.results = (addRun c8wEnv ["+5555"]).results ∧
      s.results.length = (participantsToAddOf c1wG ["+5555"]).length ∧
      s.alreadyInGroup = alreadyInGroupOf c1wG ["+5555"] :=
  c8_summary_always_persisted c8wEnv c1wG ⟨"901", "901@c.us", true⟩
    ["+5555"] rfl rfl rfl (by decide)

/-- C9 counterexample: the scripts install a SIGINT handler that destroys
the client and exits the process; there is no cancellation check inside
the loop.  For the concrete two-target run, the full trace does contain
the final results-file write, but a SIGINT delivered after the third
awaited event cuts the run in the middle of the first target's processing
(right after its `addParticipants` call, before its verification), and the
interrupted trace contains no results-file write at all — no RunSummary
over the accumulated Outcomes is returned or persisted, refuting both the
at-iteration-boundary-only delivery and the summary-on-cancellation parts
of the claim. -/
theorem c9_counterexample :
    Event.saveResultsFile ∈ (addRun c9xEnv ["+1", "+2"]).events ∧
      ((addRun c9xEnv ["+1", "+2"]).events.take 3).getLast? =
        some (Event.addParticipantsCall "1@c.us") ∧
      Event.saveResultsFile ∉
        interruptedEvents (addRun c9xEnv ["+1", "+2"]).events 3 := by decide

/-- C9 amended: a SIGINT is acted on at the next event-loop yield, which
may fall in the middle of processing a target; the handler destroys the
client and exits the process with code 0, so a run interrupted at any
point before its final event produces no results artifact: the interrupted
trace is the prefix of the run's trace followed by the handler's two
actions, and it never contains the results-file write. -/
theorem c9_sigint_loses_summary (env : AddEnv) (g : GroupChat)
    (me : Participant) (ts : List String) (k : Nat)
    (hg : env.targetGroup = some g)
    (hme : g.participants.find? (fun p => p.idSerialized == env.myId) = some me)
    (hadm : me.isAdmin = true)
    (hne : participantsToAddOf g ts ≠ [])
    (hk : k < (addRun env ts).events.length) :
    Event.saveResultsFile ∉ interruptedEvents (addRun env ts).events k ∧
      interruptedEvents (addRun env ts).events k =
        (addRun env ts).events.take k ++
          [Event.clientDestroy, Event.processExit 0] := by
  refine ⟨?_, rfl⟩
  rw [addRun_eq_of_full env g me ts hg hme hadm hne] at hk ⊢
  intro hmem
  unfold interruptedEvents sigintHandlerEvents at hmem
  rcases List.mem_append.mp hmem with h | h
  · dsimp only at h hk
    have hshape : Event.getInviteCodeCall ::
        (addLoopEventsOf env g ts ++ [Event.saveResultsFile]) =
        (Event.getInviteCodeCall :: addLoopEventsOf env g ts) ++
          [Event.saveResultsFile] := rfl
    rw [hshape] at h hk
    have hk' :
        k ≤ (Event.getInviteCodeCall :: addLoopEventsOf env g ts).length :=
      Nat.lt_succ_iff.mp (by simpa [List.length_append] using hk)
    rw [List.take_append_of_le_length hk'] at h
    have hmem2 := List.take_subset k _ h
    rcases List.mem_cons.mp hmem2 with h2 | h2
    · exact absurd h2 (by decide)
    · exact addLoopEvents_no_save env g ts h2
  · simp at h

/-- Witness for the amended C9 at a concrete input: interruption after the
seventh awaited event of an eleven-event run. -/
theorem c9_witness :
    Event.saveResultsFile ∉
        interruptedEvents (addRun c9xEnv ["+1", "+2"]).events 7 ∧
      interruptedEvents (addRun c9xEnv ["+1", "+2"]).events 7 =
        (addRun c9xEnv ["+1", "+2"]).events.take 7 ++
          [Event.clientDestroy, Event.processExit 0] :=
  c9_sigint_loses_summary c9xEnv c9xG ⟨"905", "905@c.us", true⟩
    ["+1", "+2"] 7 rfl rfl rfl (by decide) (by decide)

/-- C10 counterexample: when every supplied number is already in the group
the run returns before the loop and writes no artifact at all, so the
complement set (here `["+3333"]`) is *not* persisted alongside the
results — those numbers appear in no written record. -/
theorem c10_counterexample :
    alreadyInGroupOf c10xG ["+3333"] = ["+3333"] ∧
      (addRun c10xEnv ["+3333"]).savedFile = none := by decide

/-- C10 amended: the pre-loop filter partitions the input exactly — each
supplied number lands in precisely one of the to-process and
already-in-group lists, and both preserve the input's relative order
(they are sublists of the input); whenever the run reaches the loop (at
least one number needs processing), the written artifact carries the
complement list and one Outcome per to-process number, so no supplied
number is missing from that artifact.  When *every* number is already
satisfied, however, the run exits early and writes no artifact. -/
theorem c10_partition_persisted (env : AddEnv) (g : GroupChat)
    (me : Participant) (ts : List String)
    (hg : env.targetGroup = some g)
    (hme : g.participants.find? (fun p => p.idSerialized == env.myId) = some me)
    (hadm : me.isAdmin = true)
    (hne : participantsToAddOf g ts ≠ []) :
    (∀ t ∈ ts,
      (t ∈ participantsToAddOf g ts ∧ t ∉ alreadyInGroupOf g ts) ∨
        (t ∉ participantsToAddOf g ts ∧ t ∈ alreadyInGroupOf g ts)) ∧
      List.Sublist (participantsToAddOf g ts) ts ∧
      List.Sublist (alreadyInGroupOf g ts) ts ∧
      ∃ s : AddSaved, (addRun env ts).savedFile = some s ∧
        s.alreadyInGroup = alreadyInGroupOf g ts ∧
        s.results.map (fun r => r.number) = participantsToAddOf g ts := by
  refine ⟨?_, ?_, ?_, ?_⟩
  · intro t ht
    simp only [participantsToAddOf, alreadyInGroupOf]
    by_cases hc : (currentParticipantsOf g).contains t = true
    · right
      constructor
      · intro hmem
        rw [List.mem_filter] at hmem
        simp only [Bool.not_eq_true'] at hmem
        exact absurd (hc.symm.trans hmem.2) (by decide)
      · exact List.mem_filter.mpr ⟨ht, hc⟩
    · have hc' : (currentParticipantsOf g).contains t = false := by
        simpa using hc
      left
      constructor
      · exact List.mem_filter.mpr ⟨ht, by simpa using hc'⟩
      · intro hmem
        rw [List.mem_filter] at hmem
        rw [hc'] at hmem
        exact absurd hmem.2 (by decide)
  · unfold participantsToAddOf
    exact List.filter_sublist _
  · unfold alreadyInGroupOf
    exact List.filter_sublist _
  · rw [addRun_eq_of_full env g me ts hg hme hadm hne]
    exact ⟨addSavedOf env g ts, rfl, rfl, addResultsList_map_number env g ts⟩

/-- Witness for the amended C10 at a concrete mixed input: `+4444` is
already in the group, `+6666` is not. -/
theorem c10_witness :
    ∃ s : AddSaved,
      (addRun c10wEnv ["+4444", "+6666"]).savedFile = some s ∧
        s.alreadyInGroup = alreadyInGroupOf c10wG ["+4444", "+6666"] ∧
        s.results.map (fun r => r.number) =
          participantsToAddOf c10wG ["+4444", "+6666"] :=
  (c10_partition_persisted c10wEnv c10wG ⟨"907", "907@c.us", true⟩
    ["+4444", "+6666"] rfl rfl rfl (by decide)).2.2.2

end WhatsappGroupActions
